import Mathlib

/-!
Verification development for the content repository engine of
the-lab-education-backend: the sandboxed filesystem store
(src/services/file_system_service.py), the content tree indexer
(src/services/content_scanner_service.py) and the two parsers for the
Unified Lesson Format (src/services/ulf_parser.py and
src/services/ulf_parser_service.py).

Text is modelled as lists of characters (`Str`), so that every definition
is a computable structural recursion that the kernel can evaluate.
Python strings in the source become `Str` here; Python `str` helpers
(`split`, `strip`, `startswith`, ...) are re-implemented below with the
same semantics on the fragment of inputs exercised.
-/

set_option maxRecDepth 10000

/-- Text as an explicit character list. -/
abbrev Str := List Char

/-- View of a Lean string literal as a character list. -/
def strOf (s : String) : Str := s.data

/-- Helper for `splitChar`: accumulates the current chunk in reverse. -/
def splitCharAux (c : Char) : Str → Str → List Str
  | [], acc => [acc.reverse]
  | d :: rest, acc =>
    if d = c then acc.reverse :: splitCharAux c rest []
    else splitCharAux c rest (d :: acc)

/-- Split on every occurrence of a single character, like Python
`s.split(c)`: always returns at least one (possibly empty) part. -/
def splitChar (c : Char) (s : Str) : List Str := splitCharAux c s []

/-- Helper for `splitSub` with explicit fuel so the recursion is
structural; fuel is always at least the length of the remaining text, so
the fuel-exhausted branch is unreachable for the entry point below. -/
def splitSubFuel (sep : Str) : Nat → Str → Str → List Str
  | 0, s, acc => [acc.reverse ++ s]
  | _ + 1, [], acc => [acc.reverse]
  | fuel + 1, c :: rest, acc =>
    if sep.isPrefixOf (c :: rest) then
      acc.reverse :: splitSubFuel sep fuel (List.drop (sep.length - 1) rest) []
    else splitSubFuel sep fuel rest (c :: acc)

/-- Split on every non-overlapping occurrence of a (non-empty) substring,
scanning left to right, like Python `s.split(sep)`. -/
def splitSub (sep : Str) (s : Str) : List Str := splitSubFuel sep s.length s []

/-- Python `s.split(sep, 1)` when at least one separator occurs: the text
before the first occurrence and everything after it. Re-joining the tail
parts with the separator is exact because `splitSub` is an exact
decomposition. -/
def splitSubFirst (sep : Str) (s : Str) : Option (Str × Str) :=
  match splitSub sep s with
  | [] => none
  | [_] => none
  | a :: rest => some (a, (rest.intersperse sep).flatten)

/-- Python `str.strip()` restricted to ASCII whitespace. -/
def trimStr (s : Str) : Str :=
  ((s.dropWhile Char.isWhitespace).reverse.dropWhile Char.isWhitespace).reverse

/-- Python `str.rstrip()`: remove trailing whitespace only. -/
def rtrimStr (s : Str) : Str := (s.reverse.dropWhile Char.isWhitespace).reverse

/-- Python `str.lower()` restricted to ASCII. -/
def lowerStr (s : Str) : Str := s.map Char.toLower

/-- Python `s.replace(pat, repl)`: replace every non-overlapping
occurrence, left to right. -/
def replaceSub (pat repl s : Str) : Str :=
  ((splitSub pat s).intersperse repl).flatten

/-!
## SandboxedFileStore: src/services/file_system_service.py

`FileSystemService.__init__` sets `content_root = Path('./content').resolve()`,
an absolute canonical path; we model absolute paths as lists of path
segments (no symlinks, matching what `Path.resolve()` yields on a
symlink-free tree). The filesystem itself is a list of
(absolute path, object) entries, mutated explicitly by each operation.
-/

/-- Segments of a relative path as `pathlib` keeps them: split on the
separator, drop empty components and single dots, keep `..` (pathlib only
eliminates `..` in `resolve()`, not on construction). -/
def relSegs (rel : Str) : List Str :=
  (splitChar '/' rel).filter (fun seg => ¬ (seg = [] ∨ seg = ['.']))

/-- Whether a path string is absolute (leading slash). -/
def isAbsPath (rel : Str) : Bool := (strOf "/").isPrefixOf rel

/-- `Path.resolve()` on a symlink-free tree: process segments left to
right, `..` popping the last accepted segment (staying at the root when
there is none). -/
def resolveSegs : List Str → List Str → List Str
  | acc, [] => acc
  | acc, seg :: rest =>
    if seg = ['.', '.'] then resolveSegs acc.dropLast rest
    else resolveSegs (acc ++ [seg]) rest

/-- `(content_root / relativePath).resolve()`: an absolute `relativePath`
replaces the root (pathlib `/` semantics), then `..` elimination. -/
def resolvePath (root : List Str) (rel : Str) : List Str :=
  resolveSegs (if isAbsPath rel then [] else root) (relSegs rel)

/-- `absolute_path.parent / newName` as `rename_item` computes it: the
join is NOT resolved, so `..` segments survive into the path string. -/
def joinNoResolve (parent : List Str) (newName : Str) : List Str :=
  if isAbsPath newName then relSegs newName else parent ++ relSegs newName

/-- `str(path)` for an absolute path held as segments. -/
def segsStr (p : List Str) : Str := '/' :: ((p.intersperse (strOf "/")).flatten)

/-- The security check every store operation performs:
`str(absolute_path).startswith(str(self.content_root))`. Note this is a
raw string-prefix test with no trailing separator. -/
def secCheck (root p : List Str) : Bool := (segsStr root).isPrefixOf (segsStr p)

/-- A filesystem object: a regular file with its text, or a directory. -/
inductive FsObj where
  | fileObj (content : Str)
  | dirObj
deriving DecidableEq

/-- The filesystem as explicit state: absolute canonical paths mapped to
objects. -/
abbrev FsState := List (List Str × FsObj)

deriving instance DecidableEq for Except

/-- Lookup of an absolute path in the filesystem. -/
def lookupFs (fs : FsState) (p : List Str) : Option FsObj :=
  (fs.find? (fun e => e.1 = p)).map (fun e => e.2)

/-- The error classes raised by FileSystemService
(src/core/errors.py): SecurityError, ContentFileNotFoundError and
FileSystemOperationError. There is no separate wrong-kind error class in
the source. -/
inductive FsError where
  | securityError (msg : Str)
  | contentFileNotFoundError (msg : Str)
  | fileSystemOperationError (msg : Str)
deriving DecidableEq

/-- `FileSystemService.read_file` (lines 35-63): resolve, security check,
existence check, then read; opening a directory is an OSError mapped to
FileSystemOperationError. -/
def read_file (root : List Str) (fs : FsState) (relativePath : Str) :
    Except FsError Str :=
  let absolute_path := resolvePath root relativePath
  if ¬ secCheck root absolute_path then
    .error (.securityError
      (strOf "Access denied: path traversal attempt detected for " ++ relativePath))
  else
    match lookupFs fs absolute_path with
    | none => .error (.contentFileNotFoundError (strOf "File not found: " ++ relativePath))
    | some .dirObj =>
      .error (.fileSystemOperationError (strOf "Failed to read file: " ++ relativePath))
    | some (.fileObj c) => .ok c

/-- `FileSystemService.path_exists` (lines 198-202): security check, then
a boolean existence answer. -/
def path_exists (root : List Str) (fs : FsState) (relativePath : Str) :
    Except FsError Bool :=
  let absolute_path := resolvePath root relativePath
  if ¬ secCheck root absolute_path then
    .error (.securityError (strOf "Access denied"))
  else .ok (lookupFs fs absolute_path).isSome

/-- `FileSystemService.delete_file` (lines 110-135): resolve, security
check, existence check (ContentFileNotFoundError), kind check
(FileSystemOperationError for a non-file), then unlink. -/
def delete_file (root : List Str) (fs : FsState) (relativePath : Str) :
    Except FsError FsState :=
  let absolute_path := resolvePath root relativePath
  if ¬ secCheck root absolute_path then
    .error (.securityError
      (strOf "Access denied: path traversal attempt detected for " ++ relativePath))
  else
    match lookupFs fs absolute_path with
    | none => .error (.contentFileNotFoundError (strOf "File not found: " ++ relativePath))
    | some .dirObj =>
      .error (.fileSystemOperationError (strOf "Path is not a file: " ++ relativePath))
    | some (.fileObj _) =>
      .ok (fs.filter (fun e => if e.1 = absolute_path then false else true))

/-- `FileSystemService.delete_directory` (lines 137-162): resolve,
security check, existence check, kind check, then `shutil.rmtree`
(removes the directory and every entry below it). -/
def delete_directory (root : List Str) (fs : FsState) (relativePath : Str) :
    Except FsError FsState :=
  let absolute_path := resolvePath root relativePath
  if ¬ secCheck root absolute_path then
    .error (.securityError
      (strOf "Access denied: path traversal attempt detected for " ++ relativePath))
  else
    match lookupFs fs absolute_path with
    | none =>
      .error (.contentFileNotFoundError (strOf "Directory not found: " ++ relativePath))
    | some (.fileObj _) =>
      .error (.fileSystemOperationError (strOf "Path is not a directory: " ++ relativePath))
    | some .dirObj =>
      .ok (fs.filter (fun e => if absolute_path.isPrefixOf e.1 then false else true))

/-- `FileSystemService.rename_item` (lines 164-193): resolve and check
the source, check existence, compute `absolute_path.parent / newName`
WITHOUT resolving it, string-prefix check that unresolved path, then let
the OS perform the rename (the OS resolves `..` at syscall time, modelled
by `resolveSegs` on the raw destination). -/
def rename_item (root : List Str) (fs : FsState) (relativePath newName : Str) :
    Except FsError FsState :=
  let absolute_path := resolvePath root relativePath
  if ¬ secCheck root absolute_path then
    .error (.securityError
      (strOf "Access denied: path traversal attempt detected for source " ++ relativePath))
  else
    match lookupFs fs absolute_path with
    | none => .error (.contentFileNotFoundError (strOf "Item not found: " ++ relativePath))
    | some _ =>
      let new_absolute_path := joinNoResolve absolute_path.dropLast newName
      if ¬ (segsStr root).isPrefixOf (segsStr new_absolute_path) then
        .error (.securityError
          (strOf "Access denied: path traversal attempt detected for destination " ++ newName))
      else
        let target := resolveSegs [] new_absolute_path
        .ok (fs.map (fun e =>
          if absolute_path.isPrefixOf e.1 then
            (target ++ e.1.drop absolute_path.length, e.2)
          else e))

/-!
## YAML fragment

The source calls PyYAML (`yaml.safe_load` / `yaml.dump`) and
python-frontmatter on lesson and config texts. We model the fragment
those calls exercise here: documents that are empty (None), a single
plain scalar, or a flat block mapping of plain keys to string scalars
(plain, single-quoted, or double-quoted with backslash escapes), with no
duplicate keys, comments, nesting, or interior blank lines. Loading a
text outside the fragment is modelled as a YAML error. Dumping renders
sorted `key: value` lines, quoting values (such as the document
indicator `---`) that PyYAML would not emit plain.
-/

/-- A parsed YAML document of the fragment. -/
inductive YamlDoc where
  | ynull
  | yscalar (s : Str)
  | ymap (entries : List (Str × Str))
deriving DecidableEq

/-- Value of a hexadecimal digit. -/
def hexVal (c : Char) : Option Nat :=
  if '0' ≤ c ∧ c ≤ '9' then some (c.toNat - 48)
  else if 'a' ≤ c ∧ c ≤ 'f' then some (c.toNat - 87)
  else if 'A' ≤ c ∧ c ≤ 'F' then some (c.toNat - 55)
  else none

/-- The single-quote character, kept out of literals. -/
def quoteChar : Char := Char.ofNat 39

/-- Body of a double-quoted YAML scalar after the opening quote: plain
characters plus the escapes \xHH, \n, backslash and quote; the closing
quote must end the value. -/
def parseDQ : Str → Str → Option Str
  | [], _ => none
  | c :: rest, acc =>
    if c = '"' then (if rest = [] then some acc.reverse else none)
    else if c = '\\' then
      match rest with
      | 'x' :: h1 :: h2 :: rest2 =>
        (match hexVal h1, hexVal h2 with
         | some a, some b => parseDQ rest2 (Char.ofNat (16 * a + b) :: acc)
         | _, _ => none)
      | 'n' :: rest2 => parseDQ rest2 ('\n' :: acc)
      | '\\' :: rest2 => parseDQ rest2 ('\\' :: acc)
      | '"' :: rest2 => parseDQ rest2 ('"' :: acc)
      | _ => none
    else parseDQ rest (c :: acc)

/-- Body of a single-quoted YAML scalar after the opening quote: a
doubled quote stands for one quote; the closing quote must end the
value. -/
def parseSQ : Str → Str → Option Str
  | [], _ => none
  | c :: rest, acc =>
    if c = quoteChar then
      match rest with
      | [] => some acc.reverse
      | d :: rest2 => if d = quoteChar then parseSQ rest2 (d :: acc) else none
    else parseSQ rest (c :: acc)

/-- One scalar value (already trimmed): quoted forms are decoded, any
other non-empty text is a plain scalar taken as its own string. -/
def parseScalar (v : Str) : Option Str :=
  match v with
  | [] => none
  | c :: rest =>
    if c = '"' then parseDQ rest []
    else if c = quoteChar then parseSQ rest []
    else some v

/-- One `key: value` line of a flat block mapping: a non-empty plain key
before the first colon, one space, then a scalar value. -/
def parseMapLine (ln : Str) : Option (Str × Str) :=
  let key := ln.takeWhile (fun c => ¬ c = ':')
  let rest := ln.dropWhile (fun c => ¬ c = ':')
  match rest with
  | ':' :: ' ' :: v =>
    if key = [] then none
    else (parseScalar (trimStr v)).map (fun w => (key, w))
  | _ => none

/-- All lines of a flat block mapping. -/
def parseMapLines : List Str → Option (List (Str × Str))
  | [] => some []
  | ln :: rest =>
    match parseMapLine ln, parseMapLines rest with
    | some e, some m => some (e :: m)
    | _, _ => none

/-- `yaml.safe_load` on the fragment; `none` models `yaml.YAMLError`. -/
def yamlLoadDoc (s : Str) : Option YamlDoc :=
  let t := trimStr s
  if t = [] then some .ynull
  else
    match splitChar '\n' t with
    | [ln] =>
      if ln.any (fun c => c = ':') then (parseMapLines [ln]).map .ymap
      else some (.yscalar ln)
    | ls => (parseMapLines ls).map .ymap

/-- Lexicographic comparison by code point, as Python compares the keys
`yaml.dump` sorts. -/
def strLeB : Str → Str → Bool
  | [], _ => true
  | _ :: _, [] => false
  | a :: as, b :: bs =>
    if a.toNat < b.toNat then true
    else if b.toNat < a.toNat then false
    else strLeB as bs

/-- Insertion into a key-sorted association list. -/
def insertByKey (e : Str × Str) : List (Str × Str) → List (Str × Str)
  | [] => [e]
  | f :: rest => if strLeB e.1 f.1 then e :: f :: rest else f :: insertByKey e rest

/-- `yaml.dump` emits keys sorted (its default `sort_keys=True`). -/
def sortByKey : List (Str × Str) → List (Str × Str)
  | [] => []
  | e :: rest => insertByKey e (sortByKey rest)

/-- Whether PyYAML keeps the string plain when dumping: the fragment
keeps plain only fully alphanumeric words starting with a letter (PyYAML
additionally quotes document indicators such as a value equal to three
dashes, bool-like words, and anything with special characters, all of
which fall outside this conservative plain set; bool-, null- and
number-like words are not used as values in this development). -/
def plainOk (v : Str) : Bool :=
  match v with
  | [] => false
  | c :: _ => c.isAlpha && v.all Char.isAlphanum

/-- PyYAML scalar rendering on the fragment: plain when `plainOk`,
single-quoted otherwise with internal quotes doubled, the empty string
as a pair of quotes. -/
def renderScalar (v : Str) : Str :=
  if v = [] then [quoteChar, quoteChar]
  else if plainOk v then v
  else quoteChar :: ((v.map (fun c => if c = quoteChar then [c, c] else [c])).flatten ++ [quoteChar])

/-- `yaml.dump(mapping, default_flow_style=False)`: sorted keys, one
`key: value` line each, a trailing newline; the empty mapping dumps to a
brace pair. -/
def yamlDumpMap (m : List (Str × Str)) : Str :=
  match m with
  | [] => strOf "\x7b\x7d\n"
  | _ =>
    ((((sortByKey m).map (fun e => e.1 ++ ':' :: ' ' :: renderScalar e.2)).intersperse
        (strOf "\n")).flatten) ++ strOf "\n"

/-- Lookup in a parsed mapping, modelling `dict.get` on fragment
mappings (no duplicate keys). -/
def lookupEntry (m : List (Str × Str)) (k : Str) : Option Str :=
  (m.find? (fun e => e.1 = k)).map (fun e => e.2)

/-!
## ContentTreeIndexer: src/services/content_scanner_service.py

The directory tree handed to the scanner is modelled explicitly: a file
entry carries `some` text, or `none` when reading it would raise (the
file vanished or is unreadable); directory entries carry their children
in scan order. Nested directory scans are assumed to succeed (the tree
is given); the root scan is passed as an `Except` so a root failure can
be modelled, matching the absence of any try/except around
`scan_directory('courses')`.
-/

/-- A scanned directory entry. -/
inductive FsEntry where
  | fileE (name : Str) (content : Option Str)
  | dirE (name : Str) (children : List FsEntry)

/-- The ContentNode schema (src/schemas/content_node.py). -/
inductive ContentNode where
  | mk (type name path : Str) (children : List ContentNode) (configPath : Option Str)

/-- Node kind: course, module or lesson. -/
def ContentNode.type : ContentNode → Str
  | .mk t _ _ _ _ => t

/-- Display name of the node. -/
def ContentNode.name : ContentNode → Str
  | .mk _ n _ _ _ => n

/-- Root-relative path of the node. -/
def ContentNode.path : ContentNode → Str
  | .mk _ _ p _ _ => p

/-- Ordered children of the node. -/
def ContentNode.children : ContentNode → List ContentNode
  | .mk _ _ _ cs _ => cs

/-- Optional config path of the node. -/
def ContentNode.configPath : ContentNode → Option Str
  | .mk _ _ _ _ cp => cp

/-- Path join with a forward slash, as the f-strings in the scanner
build `config_path` and as `DirectoryScanResult.path` extends paths. -/
def joinSlash (p n : Str) : Str := p ++ '/' :: n

/-- Final segment of a slash-separated path, Python
`path.split('/')[-1]`. -/
def lastSeg (p : Str) : Str := (splitChar '/' p).getLastD []

/-- `any(item.name == cfg for item in items if item.type == 'file')`. -/
def hasFileNamed (es : List FsEntry) (nm : Str) : Bool :=
  es.any (fun e => match e with | .fileE n _ => n = nm | .dirE _ _ => false)

/-- Reading the node's config file: a found file yields its content,
where `none` content stands for a read that raises; a missing file also
raises. The `try/except Exception` in `_build_node` turns every such
failure into the filename fallback. -/
def readConfigFile (items : List FsEntry) (cfgName : Str) : Option Str :=
  match items.find? (fun e => match e with
    | .fileE n _ => n = cfgName
    | .dirE _ _ => false) with
  | some (.fileE _ c) => c
  | _ => none

/-- The title a node ends up with (content_scanner_service.py lines
51-57): `data.get('title', path.split('/')[-1])` when the config read
and YAML parse produce a mapping, and the same filename fallback when
the read raises, the YAML is invalid, or the result is not a mapping
(`data.get` then raises AttributeError, caught by the bare except). -/
def nodeTitle (path : Str) (items : List FsEntry) (cfgName : Str) : Str :=
  match readConfigFile items cfgName with
  | none => lastSeg path
  | some content =>
    match yamlLoadDoc content with
    | some (.ymap m) =>
      (match lookupEntry m (strOf "title") with
       | some t => t
       | none => lastSeg path)
    | _ => lastSeg path

/-- The config title lookup that succeeds exactly when `nodeTitle` does
not fall back: the file is readable, parses to a mapping, and the
mapping has a `title` entry. -/
def configTitleLookup (cs : List FsEntry) (cfgName : Str) : Option Str :=
  match readConfigFile cs cfgName with
  | none => none
  | some content =>
    match yamlLoadDoc content with
    | some (.ymap m) => lookupEntry m (strOf "title")
    | _ => none

mutual

/-- `ContentScannerService._build_node` (lines 35-82) on one scanned
directory: classify by the literal presence of `_course.yml`, else
`_module.yml`, among the immediate file children, otherwise prune
(return none); the name comes from `nodeTitle`; children are collected
in one pass over scan order. The source only ever calls `_build_node`
on directories; a file entry maps to none. -/
def build_node (parentPath : Str) : FsEntry → Option ContentNode
  | .fileE _ _ => none
  | .dirE name cs =>
    let path := joinSlash parentPath name
    if hasFileNamed cs (strOf "_course.yml") then
      some (.mk (strOf "course") (nodeTitle path cs (strOf "_course.yml")) path
        (build_children path cs) (some (joinSlash path (strOf "_course.yml"))))
    else if hasFileNamed cs (strOf "_module.yml") then
      some (.mk (strOf "module") (nodeTitle path cs (strOf "_module.yml")) path
        (build_children path cs) (some (joinSlash path (strOf "_module.yml"))))
    else none

/-- The child loop of `_build_node`: subdirectories contribute their
non-none recursive node; a file whose name ends in `.lesson` contributes
a lesson leaf named after the file with the extension removed. -/
def build_children (path : Str) : List FsEntry → List ContentNode
  | [] => []
  | e :: rest =>
    (match e with
     | .dirE _ _ =>
       (match build_node path e with
        | some nd => [nd]
        | none => [])
     | .fileE n _ =>
       if (strOf ".lesson").isSuffixOf n then
         [.mk (strOf "lesson") (replaceSub (strOf ".lesson") [] n) (joinSlash path n) [] none]
       else []) ++ build_children path rest

end

/-- `ContentScannerService.build_content_tree` (lines 16-33) without the
TTL cache wrapper: a failure scanning the root `courses` directory
propagates unmodified; on success each immediate subdirectory
contributes its non-none `_build_node` result. -/
def build_content_tree (rootScan : Except FsError (List FsEntry)) :
    Except FsError (List ContentNode) :=
  match rootScan with
  | .error e => .error e
  | .ok items =>
    .ok (items.filterMap (fun e => match e with
      | .dirE _ _ => build_node (strOf "courses") e
      | .fileE _ _ => none))

/-- The nested `gather_lessons` closure of `get_course_lesson_slugs`
(lines 90-97), lifted to a child list: collect lesson child names and
recurse into every non-lesson child, in order. -/
def gatherChildren : List ContentNode → List Str
  | [] => []
  | c :: rest =>
    (if c.type = strOf "lesson" then [c.name] else gatherChildren c.children)
      ++ gatherChildren rest
termination_by l => sizeOf l
decreasing_by
  all_goals cases c with
  | mk t n p cs cp => simp [ContentNode.children]; try omega

/-- Python `path.strip("/")`. -/
def stripSlashes (p : Str) : Str :=
  ((p.dropWhile (fun c => c = '/')).reverse.dropWhile (fun c => c = '/')).reverse

/-- The match condition of the loop in `get_course_lesson_slugs` (lines
99-103): only course nodes are considered, and either the lowercased
final path segment or the lowercased display name must equal the
lowercased requested slug. -/
def courseMatch (course_slug : Str) (c : ContentNode) : Bool :=
  c.type = strOf "course" &&
    (lowerStr (lastSeg (stripSlashes c.path)) = lowerStr course_slug ||
     lowerStr c.name = lowerStr course_slug)

/-- `ContentScannerService.get_course_lesson_slugs` (lines 84-104) on an
already built tree: the gathered lesson names of the first matching
course node, or the empty list when no node matches. -/
def get_course_lesson_slugs (tree : List ContentNode) (course_slug : Str) : List Str :=
  match tree.find? (courseMatch course_slug) with
  | some c => gatherChildren c.children
  | none => []

mutual

/-- Specification-side document-order traversal of a node: the node
followed by the preorder of each child, left to right. -/
def preorder (n : ContentNode) : List ContentNode :=
  n :: preorderF n.children
termination_by sizeOf n
decreasing_by
  cases n with
  | mk t nm p cs cp => simp [ContentNode.children]; try omega

/-- Specification-side document-order traversal of a forest. -/
def preorderF : List ContentNode → List ContentNode
  | [] => []
  | c :: rest => preorder c ++ preorderF rest
termination_by l => sizeOf l
decreasing_by
  all_goals simp; try omega

end

/-- Specification-side reading of claim C6: the names of the lesson
nodes below (or at) `n`, in depth-first document order. -/
def dfsLessonNames (n : ContentNode) : List Str :=
  ((preorder n).filter (fun x => x.type = strOf "lesson")).map (fun x => x.name)

/-!
## ULFCodec

Two distinct parsers exist in the source. `ulf_parser.py` is the reading
parser: line-based front-matter split, `body.split("\n---\n")` for
cells, slug/title/UUID requirements, content rstripped.
`ulf_parser_service.py` is the validation/stringify service:
python-frontmatter for the front matter, `body.split('---')` (every
substring occurrence) for cells, no slug/title/UUID requirements,
content stripped on both sides.
-/

/-- `ULFParseError` of ulf_parser.py, always carrying the violated
rule; messages here paraphrase the source without punctuation that the
source quotes. -/
inductive ULFErr where
  | formatError (msg : String)
deriving DecidableEq

/-- `ParsingError` raised by ULFParserService (src/core/errors.py). -/
inductive SvcErr where
  | parsingError (msg : String)
deriving DecidableEq

/-- A cell of the reading parser (schema `LessonCell`): type, content,
and the remaining metadata keys as config. -/
structure LessonCell where
  type : Str
  content : Str
  config : List (Str × Str)
deriving DecidableEq

/-- The reading parser's document (schema `LessonContent`): slug, title,
optional course slug, optional lesson id (kept as its text), preserved
unknown front-matter keys, and the ordered cells. -/
structure LessonContent where
  slug : Str
  title : Str
  course_slug : Option Str
  lesson_id : Option Str
  metadata : List (Str × Str)
  cells : List LessonCell
deriving DecidableEq

/-- `_split_front_matter` (ulf_parser.py lines 128-139): the text must
start with three dashes; split once on newline-dashes-newline; drop the
three leading dashes and strip the front matter; the body is everything
after the first separator. -/
def split_front_matter (raw : Str) : Except ULFErr (Str × Str) :=
  if ¬ (strOf "---").isPrefixOf raw then
    .error (.formatError "Lesson file must start with YAML front matter delimited by ---")
  else
    match splitSubFirst (strOf "\n---\n") raw with
    | none =>
      .error (.formatError "Lesson file must contain front matter and a body separated by ---")
    | some (pre, body) => .ok (trimStr (pre.drop 3), body)

/-- `_parse_yaml` (ulf_parser.py lines 142-150): `safe_load(raw) or` the
empty mapping; a YAML error or a non-mapping result raises the given
message. -/
def parse_yaml_mapping (raw : Str) (msg : String) :
    Except ULFErr (List (Str × Str)) :=
  match yamlLoadDoc raw with
  | none => .error (.formatError msg)
  | some .ynull => .ok []
  | some (.yscalar _) => .error (.formatError msg)
  | some (.ymap m) => .ok m

/-- `metadata.get(k)` followed by Python truthiness: an empty string is
as good as a missing key. -/
def truthyGet (m : List (Str × Str)) (k : String) : Option Str :=
  match lookupEntry m (strOf k) with
  | some [] => none
  | some v => some v
  | none => none

/-- The UUID acceptance of `_coerce_optional_uuid` (ulf_parser.py lines
182-189) on the fragment of plain hex-and-dash texts: Python's `UUID`
constructor removes dashes and then requires exactly 32 hexadecimal
digits (urn prefixes and braces, which it also strips, are outside the
fragment). -/
def isUUIDText (v : Str) : Bool :=
  let hexOnly := v.filter (fun c => ¬ c = '-')
  hexOnly.length = 32 && hexOnly.all (fun c => (hexVal c).isSome)

/-- The validated front matter of the reading parser. -/
structure FrontMatterInfo where
  slug : Str
  title : Str
  course_slug : Option Str
  lesson_id : Option Str
  metadata : List (Str × Str)
deriving DecidableEq

/-- `metadata.get("slug") or metadata.get("lesson_slug")`: the Python
`or` falls through on a falsy (empty) slug. -/
def slugLookup (m : List (Str × Str)) : Option Str :=
  match truthyGet m "slug" with
  | some v => some v
  | none => truthyGet m "lesson_slug"

/-- `metadata.get("lesson_id") or metadata.get("id")`, combined with the
falsy short-circuit of `_coerce_optional_uuid` on None and the empty
string. -/
def lessonIdLookup (m : List (Str × Str)) : Option Str :=
  match truthyGet m "lesson_id" with
  | some v => some v
  | none => truthyGet m "id"

/-- The front-matter keys the reading parser consumes; everything else
is preserved verbatim in the document metadata. -/
def unknownMeta (m : List (Str × Str)) : List (Str × Str) :=
  m.filter (fun e =>
    ¬ (e.1 = strOf "slug" ∨ e.1 = strOf "lesson_slug" ∨ e.1 = strOf "title"
       ∨ e.1 = strOf "lesson_id" ∨ e.1 = strOf "id" ∨ e.1 = strOf "course_slug"))

/-- The front-matter requirements of `parse_lesson_file_from_text`
(ulf_parser.py lines 39-59): `slug` (or the falsy-or alias
`lesson_slug`) must be truthy, `title` must be truthy, a truthy
`lesson_id` (or `id`) must be a valid UUID, `course_slug` is kept when
truthy, and every key outside the known set is preserved verbatim. -/
def front_matter_validate (m : List (Str × Str)) :
    Except ULFErr FrontMatterInfo :=
  match slugLookup m with
  | none => .error (.formatError "Lesson front matter must include slug")
  | some slugv =>
    match truthyGet m "title" with
    | none => .error (.formatError "Lesson front matter must include title")
    | some titlev =>
      match lessonIdLookup m with
      | some v =>
        if isUUIDText v then
          .ok { slug := slugv, title := titlev,
                course_slug := truthyGet m "course_slug",
                lesson_id := some v, metadata := unknownMeta m }
        else .error (.formatError "lesson_id must be a valid UUID")
      | none =>
        .ok { slug := slugv, title := titlev,
              course_slug := truthyGet m "course_slug",
              lesson_id := none, metadata := unknownMeta m }

/-- The per-pair loop of `_parse_cells` (ulf_parser.py lines 162-178):
metadata must be a YAML mapping declaring `type`; the remaining keys
become the config; the content is the raw segment rstripped. The parts
list always has even length at the call site. -/
def cellsOfParts : List Str → Except ULFErr (List LessonCell)
  | [] => .ok []
  | [_] => .error (.formatError "Each lesson cell must contain metadata and content separated by ---")
  | meta_raw :: content_raw :: rest =>
    match parse_yaml_mapping meta_raw "Cell metadata must be valid YAML mapping" with
    | .error e => .error e
    | .ok meta =>
      match lookupEntry meta (strOf "type") with
      | none => .error (.formatError "Cell metadata must include a type field")
      | some tv =>
        match cellsOfParts rest with
        | .error e => .error e
        | .ok cells =>
          .ok ({ type := tv, content := rtrimStr content_raw,
                 config := meta.filter (fun e => ¬ e.1 = strOf "type") } :: cells)

/-- `_parse_cells` (ulf_parser.py lines 153-179): strip the body, an
empty body has no cells, split on newline-dashes-newline, require an
even number of segments, then parse the (metadata, content) pairs. -/
def parse_cells (body : Str) : Except ULFErr (List LessonCell) :=
  let b := trimStr body
  if b = [] then .ok []
  else
    let parts := splitSub (strOf "\n---\n") b
    if ¬ parts.length % 2 = 0 then
      .error (.formatError "Each lesson cell must contain metadata and content separated by ---")
    else cellsOfParts parts

/-- `parse_lesson_file_from_text` (ulf_parser.py lines 21-64): front
matter split, mapping requirement, slug/title/UUID validation, cell
parsing, and assembly of the LessonContent value. The final pydantic
length/character validation of `LessonContent` is not modelled; every
input used in the theorems below satisfies it. -/
def parse_lesson_file_from_text (raw : Str) : Except ULFErr LessonContent :=
  match split_front_matter raw with
  | .error e => .error e
  | .ok (front_matter, body) =>
    match parse_yaml_mapping front_matter "Invalid front matter in lesson file" with
    | .error e => .error e
    | .ok metadata =>
      match front_matter_validate metadata with
      | .error e => .error e
      | .ok info =>
        match parse_cells body with
        | .error e => .error e
        | .ok cells =>
          .ok { slug := info.slug, title := info.title,
                course_slug := info.course_slug, lesson_id := info.lesson_id,
                metadata := info.metadata, cells := cells }

/-- A cell of the validation service: config mapping and content. -/
structure SvcCell where
  config : List (Str × Str)
  content : Str
deriving DecidableEq

/-- The dictionary `ULFParserService.parse` returns: the front-matter
mapping and the cell list. -/
structure SvcDoc where
  frontmatter : List (Str × Str)
  cells : List SvcCell
deriving DecidableEq

/-- `frontmatter.loads` of python-frontmatter on the fragment: the input
is stripped; a text opening with a dash boundary line and containing a
closing boundary splits into metadata and content (the content again
stripped by `frontmatter.parse`); a closing boundary may also sit at the
very end of the text; otherwise there is no front matter and the whole
stripped text is the content. Metadata outside a mapping is not used by
the fragment and collapses to the empty mapping. -/
def frontmatter_loads (text : Str) : List (Str × Str) × Str :=
  let t := trimStr text
  if (strOf "---\n").isPrefixOf t then
    let rest := t.drop 4
    match splitSubFirst (strOf "\n---\n") rest with
    | some (fm, content) =>
      ((match yamlLoadDoc fm with
        | some (.ymap m) => m
        | _ => []), trimStr content)
    | none =>
      if (strOf "\n---").isSuffixOf rest then
        ((match yamlLoadDoc (rest.take (rest.length - 4)) with
          | some (.ymap m) => m
          | _ => []), [])
      else ([], t)
  else ([], t)

/-- The cell loop of `ULFParserService.parse` (ulf_parser_service.py
lines 25-41): each config segment is stripped and YAML-parsed (`or` the
empty mapping; a non-mapping raises), each content segment is stripped
on BOTH sides. -/
def svcCellsOfParts : List Str → Except SvcErr (List SvcCell)
  | [] => .ok []
  | [_] => .error (.parsingError "Invalid structure: cells must have config and content separated by ---")
  | cfg_raw :: content_raw :: rest =>
    match yamlLoadDoc (trimStr cfg_raw) with
    | none => .error (.parsingError "Invalid YAML in cell config")
    | some (.yscalar _) => .error (.parsingError "Cell config must be a dictionary")
    | some .ynull =>
      (match svcCellsOfParts rest with
       | .error e => .error e
       | .ok cells => .ok ({ config := [], content := trimStr content_raw } :: cells))
    | some (.ymap m) =>
      (match svcCellsOfParts rest with
       | .error e => .error e
       | .ok cells => .ok ({ config := m, content := trimStr content_raw } :: cells))

/-- `ULFParserService.parse` (ulf_parser_service.py lines 9-51): front
matter via python-frontmatter, then the body split on EVERY occurrence
of the three-dash substring (not line-based); an odd number of segments
raises ParsingError; each (config, content) pair is parsed as above. -/
def service_parse (text : Str) : Except SvcErr SvcDoc :=
  let fmAndBody := frontmatter_loads text
  let cell_parts := splitSub (strOf "---") fmAndBody.2
  if ¬ cell_parts.length % 2 = 0 then
    .error (.parsingError "Invalid structure: cells must have config and content separated by ---")
  else
    match svcCellsOfParts cell_parts with
    | .error e => .error e
    | .ok cells => .ok { frontmatter := fmAndBody.1, cells := cells }

/-- `ULFParserService.stringify` (ulf_parser_service.py lines 53-80):
dump and strip the front matter, dump and strip each cell config, and
join config/content segments with newline-dashes-newline below a
three-dash front matter frame. -/
def service_stringify (doc : SvcDoc) : Str :=
  let frontmatter_yaml := trimStr (yamlDumpMap doc.frontmatter)
  let body_parts := (doc.cells.map (fun c => [trimStr (yamlDumpMap c.config), c.content])).flatten
  let body := ((body_parts.intersperse (strOf "\n---\n")).flatten)
  strOf "---\n" ++ frontmatter_yaml ++ strOf "\n---\n" ++ body

/-!
## Claims
-/

/-- C1: the claim says every relative path resolving outside the
canonical root makes every store operation raise SecurityError with no
mutation. The code's containment check is
`str(absolute_path).startswith(str(content_root))` with no trailing
separator, so with root segments app/content, the relative path
`../content2/secret` resolves to the sibling app/content2/secret —
outside the root as a path (third conjunct) yet passing the check
(second conjunct) — after which `path_exists` answers instead of
raising, `delete_file` deletes the out-of-root file (a mutation outside
the sandbox), and `read_file` on a missing out-of-root path raises
ContentFileNotFoundError rather than SecurityError. -/
theorem c1_containment_escape :
    resolvePath [strOf "app", strOf "content"] (strOf "../content2/secret")
        = [strOf "app", strOf "content2", strOf "secret"]
  ∧ ([strOf "app", strOf "content"]).isPrefixOf [strOf "app", strOf "content2", strOf "secret"] = false
  ∧ secCheck [strOf "app", strOf "content"] [strOf "app", strOf "content2", strOf "secret"] = true
  ∧ path_exists [strOf "app", strOf "content"]
      [([strOf "app", strOf "content"], .dirObj),
       ([strOf "app", strOf "content2", strOf "secret"], .fileObj (strOf "s"))]
      (strOf "../content2/secret") = .ok true
  ∧ delete_file [strOf "app", strOf "content"]
      [([strOf "app", strOf "content"], .dirObj),
       ([strOf "app", strOf "content2", strOf "secret"], .fileObj (strOf "s"))]
      (strOf "../content2/secret") = .ok [([strOf "app", strOf "content"], .dirObj)]
  ∧ read_file [strOf "app", strOf "content"]
      [([strOf "app", strOf "content"], .dirObj)] (strOf "../content2/secret")
      = .error (.contentFileNotFoundError (strOf "File not found: ../content2/secret")) := by
  decide

/-- C3: the claim says a newName whose sibling destination lies outside
the canonical root makes rename_item raise SecurityError with no rename.
The code validates the UNRESOLVED `absolute_path.parent / newName`, so
`newName = "../esc"` yields the string /app/content/../esc, which passes
the string-prefix check (first conjunct) although it resolves to
/app/esc outside the root (second and third conjuncts); the rename then
proceeds and moves the file outside the sandbox (fourth conjunct). -/
theorem c3_rename_destination_escape :
    (segsStr [strOf "app", strOf "content"]).isPrefixOf
        (segsStr (joinNoResolve [strOf "app", strOf "content"] (strOf "../esc"))) = true
  ∧ resolveSegs [] (joinNoResolve [strOf "app", strOf "content"] (strOf "../esc"))
        = [strOf "app", strOf "esc"]
  ∧ ([strOf "app", strOf "content"]).isPrefixOf [strOf "app", strOf "esc"] = false
  ∧ rename_item [strOf "app", strOf "content"]
      [([strOf "app", strOf "content"], .dirObj),
       ([strOf "app", strOf "content", strOf "a"], .fileObj (strOf "x"))]
      (strOf "a") (strOf "../esc")
      = .ok [([strOf "app", strOf "content"], .dirObj),
             ([strOf "app", strOf "esc"], .fileObj (strOf "x"))] := by
  decide

/-- C4 counterexample: the claim says a wrong-kind target raises an
error DISTINCT from the generic FilesystemError. In the source there is
no wrong-kind class: `delete_file` on a directory and `delete_directory`
on a file raise FileSystemOperationError — the very constructor produced
for generic OS failures such as `read_file` opening a directory (third
conjunct) — so the wrong-kind case is not distinguishable from the
generic class. -/
theorem c4_wrong_kind_same_class :
    delete_file [strOf "app", strOf "content"]
      [([strOf "app", strOf "content"], .dirObj),
       ([strOf "app", strOf "content", strOf "d"], .dirObj)]
      (strOf "d") = .error (.fileSystemOperationError (strOf "Path is not a file: d"))
  ∧ delete_directory [strOf "app", strOf "content"]
      [([strOf "app", strOf "content"], .dirObj),
       ([strOf "app", strOf "content", strOf "f"], .fileObj [])]
      (strOf "f") = .error (.fileSystemOperationError (strOf "Path is not a directory: f"))
  ∧ read_file [strOf "app", strOf "content"]
      [([strOf "app", strOf "content"], .dirObj),
       ([strOf "app", strOf "content", strOf "d"], .dirObj)]
      (strOf "d") = .error (.fileSystemOperationError (strOf "Failed to read file: d")) := by
  decide

/-- C4 amended: `delete_file` and `delete_directory` check existence and
kind before removing anything — a missing target raises
ContentFileNotFoundError, a present target of the wrong kind raises
FileSystemOperationError (the generic filesystem error class, not a
distinct wrong-kind class), and removal happens only for a present
target of the expected kind. Error outcomes return no new state: nothing
is removed before the checks pass. -/
theorem c4_delete_error_taxonomy (root : List Str) (fs : FsState) (rel : Str)
    (hsec : secCheck root (resolvePath root rel) = true) :
    (lookupFs fs (resolvePath root rel) = none →
        delete_file root fs rel
          = .error (.contentFileNotFoundError (strOf "File not found: " ++ rel))
      ∧ delete_directory root fs rel
          = .error (.contentFileNotFoundError (strOf "Directory not found: " ++ rel)))
  ∧ (lookupFs fs (resolvePath root rel) = some .dirObj →
        delete_file root fs rel
          = .error (.fileSystemOperationError (strOf "Path is not a file: " ++ rel)))
  ∧ (∀ c, lookupFs fs (resolvePath root rel) = some (.fileObj c) →
        delete_directory root fs rel
          = .error (.fileSystemOperationError (strOf "Path is not a directory: " ++ rel)))
  ∧ (∀ c, lookupFs fs (resolvePath root rel) = some (.fileObj c) →
        delete_file root fs rel
          = .ok (fs.filter (fun e => if e.1 = resolvePath root rel then false else true)))
  ∧ (lookupFs fs (resolvePath root rel) = some .dirObj →
        delete_directory root fs rel
          = .ok (fs.filter (fun e => if (resolvePath root rel).isPrefixOf e.1 then false else true))) := by
  refine ⟨fun h => ⟨?_, ?_⟩, fun h => ?_, fun c h => ?_, fun c h => ?_, fun h => ?_⟩ <;>
    simp [delete_file, delete_directory, hsec, h]

/-- Closed instance of the C4 taxonomy theorem at a concrete store. -/
theorem c4_delete_error_taxonomy_witness :
    delete_file [strOf "app", strOf "content"] [([strOf "app", strOf "content"], .dirObj)]
        (strOf "missing")
      = .error (.contentFileNotFoundError (strOf "File not found: " ++ strOf "missing")) :=
  ((c4_delete_error_taxonomy [strOf "app", strOf "content"]
      [([strOf "app", strOf "content"], .dirObj)] (strOf "missing") (by decide)).1 (by decide)).1

/-- C2: the spec law says stringify(parse(T)) re-parses to a document
field-equal to parse(T) for every syntactically valid T. The input here
is syntactically valid — its cell config writes the value of key `a`
with YAML \x2d escapes, so the raw text contains no dash triple and
splits evenly — and parses successfully (first conjunct). Its stringify
renders that config as `a:` followed by a single-quoted dash triple
(second conjunct), which the substring-based cell split of
`ULFParserService.parse` then cuts apart, so re-parsing raises
ParsingError instead of returning a field-equal document (third
conjunct). -/
theorem c2_roundtrip_failure :
    service_parse (strOf "---\ntitle: t\n---\na: \"\\x2d\\x2d\\x2d\"\n---\nhello")
      = .ok { frontmatter := [(strOf "title", strOf "t")],
              cells := [{ config := [(strOf "a", strOf "---")], content := strOf "hello" }] }
  ∧ service_stringify { frontmatter := [(strOf "title", strOf "t")],
                        cells := [{ config := [(strOf "a", strOf "---")], content := strOf "hello" }] }
      = strOf "---\ntitle: t\n---\na: \x27---\x27\n---\nhello"
  ∧ service_parse (strOf "---\ntitle: t\n---\na: \x27---\x27\n---\nhello")
      = .error (.parsingError "Invalid structure: cells must have config and content separated by ---") := by
  decide

/-- C8 counterexample: the claim says that when the front matter is a
mapping CONTAINING slug (or lesson_slug) and title, no front-matter
FormatError is raised. The code tests Python truthiness, not key
presence: a mapping whose `slug` key is present with the empty string
(first conjunct) is rejected with the missing-slug FormatError, both at
the front-matter stage (second conjunct) and end to end on the full
lesson text written with a quoted empty slug (third conjunct). -/
theorem c8_present_empty_slug_rejected :
    lookupEntry [(strOf "slug", []), (strOf "title", strOf "T")] (strOf "slug") = some []
  ∧ front_matter_validate [(strOf "slug", []), (strOf "title", strOf "T")]
      = .error (.formatError "Lesson front matter must include slug")
  ∧ parse_lesson_file_from_text (strOf "---\nslug: \x27\x27\ntitle: T\n---\ntype: md\n---\nhi")
      = .error (.formatError "Lesson front matter must include slug") := by
  decide

/-- C8 amended: parse raises FormatError when the front matter is not a
YAML mapping, when slug and the alias lesson_slug are both missing or
empty (Python falsiness), or when title is missing or empty; when the
front matter is a mapping whose slug (or lesson_slug) and title values
are non-empty and which carries no usable lesson_id/id value, the
front-matter validation succeeds with exactly those fields. -/
theorem c8_front_matter_rules :
    (∀ raw s, yamlLoadDoc raw = some (.yscalar s) →
        parse_yaml_mapping raw "Invalid front matter in lesson file"
          = .error (.formatError "Invalid front matter in lesson file"))
  ∧ (∀ m, slugLookup m = none →
        front_matter_validate m = .error (.formatError "Lesson front matter must include slug"))
  ∧ (∀ m slugv, slugLookup m = some slugv → truthyGet m "title" = none →
        front_matter_validate m = .error (.formatError "Lesson front matter must include title"))
  ∧ (∀ m slugv titlev, slugLookup m = some slugv → truthyGet m "title" = some titlev →
        lessonIdLookup m = none →
        front_matter_validate m
          = .ok { slug := slugv, title := titlev,
                  course_slug := truthyGet m "course_slug",
                  lesson_id := none, metadata := unknownMeta m }) := by
  refine ⟨?_, ?_, ?_, ?_⟩
  · intro raw s h
    simp [parse_yaml_mapping, h]
  · intro m h
    simp [front_matter_validate, h]
  · intro m slugv h1 h2
    simp [front_matter_validate, h1, h2]
  · intro m slugv titlev h1 h2 h3
    simp [front_matter_validate, h1, h2, h3]

/-- Closed instance of the C8 front-matter rules at a concrete
mapping. -/
theorem c8_front_matter_rules_witness :
    front_matter_validate [(strOf "slug", strOf "s1"), (strOf "title", strOf "T1")]
      = .ok { slug := strOf "s1", title := strOf "T1", course_slug := none,
              lesson_id := none,
              metadata := unknownMeta [(strOf "slug", strOf "s1"), (strOf "title", strOf "T1")] } :=
  c8_front_matter_rules.2.2.2
    [(strOf "slug", strOf "s1"), (strOf "title", strOf "T1")]
    (strOf "s1") (strOf "T1") (by decide) (by decide) (by decide)

/-- The odd-position (content) segments of the cell segment list. -/
def contentSegs : List Str → List Str
  | [] => []
  | [_] => []
  | _ :: content :: rest => content :: contentSegs rest

/-- C9 counterexample: the claim says every cell of a successfully
parsed document keeps its raw segment with ONLY trailing whitespace
removed, leading whitespace preserved. `ULFParserService.parse` — one of
the two parsers the claim covers — strips both sides: on a document
whose only content segment is a newline, two spaces and `hi`, the
service returns content `hi` (first conjunct) although the raw segment
between the delimiters is the newline-and-spaces text (second conjunct)
whose trailing-only trim leaves it unchanged (third conjunct) and
differs from `hi` (fourth conjunct). -/
theorem c9_service_strips_leading :
    service_parse (strOf "---\nt: x\n---\ntype: md\n---\n  hi")
      = .ok { frontmatter := [(strOf "t", strOf "x")],
              cells := [{ config := [(strOf "type", strOf "md")], content := strOf "hi" }] }
  ∧ splitSub (strOf "---") (strOf "type: md\n---\n  hi")
      = [strOf "type: md\n", strOf "\n  hi"]
  ∧ rtrimStr (strOf "\n  hi") = strOf "\n  hi"
  ∧ ¬ strOf "hi" = strOf "\n  hi" := by
  decide

/-- Every string splits as its rstrip followed by a whitespace tail: the
removed part is all whitespace and the kept part is a verbatim prefix. -/
theorem rtrimStr_decomp (s : Str) :
    ∃ w, (∀ ch ∈ w, ch.isWhitespace = true) ∧ s = rtrimStr s ++ w := by
  refine ⟨(s.reverse.takeWhile Char.isWhitespace).reverse, ?_, ?_⟩
  · intro ch hch
    rw [List.mem_reverse] at hch
    exact List.mem_takeWhile_imp hch
  · rw [rtrimStr, ← List.reverse_append, List.takeWhile_append_dropWhile, List.reverse_reverse]

/-- C9 amended for the reading parser: for every successfully parsed
segment list, the produced cell contents are exactly the odd-position
raw segments with `rstrip` applied, and each such segment is its
rstripped text followed by a pure-whitespace tail — so leading
whitespace and all interior text are preserved verbatim by
`_parse_cells`, while `ULFParserService.parse` strips both ends (see the
counterexample). -/
theorem c9_reader_keeps_leading (parts : List Str) (cells : List LessonCell)
    (h : cellsOfParts parts = .ok cells) :
    cells.map (fun c => c.content) = (contentSegs parts).map rtrimStr
  ∧ ∀ s ∈ contentSegs parts, ∃ w, (∀ ch ∈ w, ch.isWhitespace = true) ∧ s = rtrimStr s ++ w := by
  constructor
  · induction parts using contentSegs.induct generalizing cells with
    | case1 =>
      simp [cellsOfParts] at h
      simp [← h, contentSegs]
    | case2 x =>
      simp [cellsOfParts] at h
    | case3 meta_raw content_raw rest ih =>
      cases hm : parse_yaml_mapping meta_raw "Cell metadata must be valid YAML mapping" with
      | error e => simp [cellsOfParts, hm] at h
      | ok meta =>
        cases ht : lookupEntry meta (strOf "type") with
        | none => simp [cellsOfParts, hm, ht] at h
        | some tv =>
          cases hr : cellsOfParts rest with
          | error e => simp [cellsOfParts, hm, ht, hr] at h
          | ok cells2 =>
            simp only [cellsOfParts, hm, ht, hr, Except.ok.injEq] at h
            rw [← h]
            simp [contentSegs, ih cells2 hr]
  · intro s _
    exact rtrimStr_decomp s

/-- Closed instance of the C9 reader theorem at a concrete segment
list. -/
theorem c9_reader_keeps_leading_witness :
    ([({ type := strOf "md", content := strOf "  hi", config := [] } : LessonCell)]).map
        (fun c => c.content)
      = (contentSegs [strOf "type: md", strOf "  hi"]).map rtrimStr :=
  (c9_reader_keeps_leading [strOf "type: md", strOf "  hi"]
      [{ type := strOf "md", content := strOf "  hi", config := [] }] (by decide)).1

/-- C10 counterexample: the claim calls the validation parser STRICTLY
weaker than the reading parser. On a lesson whose cell content carries a
dash triple inside a line, the reading parser (line-based separators)
accepts (first conjunct) while the validation parser (substring split)
raises ParsingError (second conjunct) — so the validator's rules are not
weaker. -/
theorem c10_validator_not_weaker :
    parse_lesson_file_from_text (strOf "---\nslug: s\ntitle: t\n---\ntype: md\n---\nx---y")
      = .ok { slug := strOf "s", title := strOf "t", course_slug := none, lesson_id := none,
              metadata := [],
              cells := [{ type := strOf "md", content := strOf "x---y", config := [] }] }
  ∧ service_parse (strOf "---\nslug: s\ntitle: t\n---\ntype: md\n---\nx---y")
      = .error (.parsingError "Invalid structure: cells must have config and content separated by ---") := by
  decide

/-- C10 amended: the two parsers are incomparable, not ordered by
strictness. The validation parser does accept documents the reading
parser rejects: one without slug or title passes validation but fails
reading with the missing-slug FormatError (first pair), and one with a
non-UUID lesson_id passes validation but fails reading with the UUID
FormatError (second pair). The reverse inclusion fails on the
counterexample theorem's input. -/
theorem c10_validator_reader_incomparable :
    (service_parse (strOf "---\nfoo: bar\n---\ntype: md\n---\nhi")
        = .ok { frontmatter := [(strOf "foo", strOf "bar")],
                cells := [{ config := [(strOf "type", strOf "md")], content := strOf "hi" }] }
  ∧ parse_lesson_file_from_text (strOf "---\nfoo: bar\n---\ntype: md\n---\nhi")
        = .error (.formatError "Lesson front matter must include slug"))
  ∧ (service_parse (strOf "---\nslug: s\ntitle: t\nlesson_id: zzz\n---\ntype: md\n---\nhi")
        = .ok { frontmatter := [(strOf "slug", strOf "s"), (strOf "title", strOf "t"),
                                (strOf "lesson_id", strOf "zzz")],
                cells := [{ config := [(strOf "type", strOf "md")], content := strOf "hi" }] }
  ∧ parse_lesson_file_from_text (strOf "---\nslug: s\ntitle: t\nlesson_id: zzz\n---\ntype: md\n---\nhi")
        = .error (.formatError "lesson_id must be a valid UUID")) := by
  decide

/-- C5: build_node prunes every directory containing neither a file
literally named _course.yml nor one named _module.yml: it returns none
for such a directory (first conjunct), the directory contributes nothing
to any parent's child list wherever it occurs — so no lesson node for
any `.lesson` file inside it or its subtree ever appears (second
conjunct) — and the root-level build likewise ignores it entirely (third
conjunct). -/
theorem c5_pruning (name : Str) (cs : List FsEntry)
    (h1 : hasFileNamed cs (strOf "_course.yml") = false)
    (h2 : hasFileNamed cs (strOf "_module.yml") = false) :
    (∀ p, build_node p (.dirE name cs) = none)
  ∧ (∀ p pre post, build_children p (pre ++ .dirE name cs :: post)
      = build_children p pre ++ build_children p post)
  ∧ (∀ pre post, build_content_tree (.ok (pre ++ .dirE name cs :: post))
      = build_content_tree (.ok (pre ++ post))) := by
  have hnode : ∀ p, build_node p (.dirE name cs) = none := by
    intro p
    simp [build_node, h1, h2]
  refine ⟨hnode, ?_, ?_⟩
  · intro p pre post
    induction pre with
    | nil => simp [build_children, hnode]
    | cons e pre ih => simp [build_children, ih, List.append_assoc]
  · intro pre post
    simp [build_content_tree, List.filterMap_append, List.filterMap_cons, hnode]

/-- Closed instance of the C5 pruning theorem: a directory holding only
a lesson file and no config is pruned. -/
theorem c5_pruning_witness :
    build_node (strOf "courses") (.dirE (strOf "orphan") [.fileE (strOf "a.lesson") (some [])]) = none :=
  (c5_pruning (strOf "orphan") [.fileE (strOf "a.lesson") (some [])] rfl rfl).1 (strOf "courses")

/-- When the config title lookup fails, the node's title is the final
path segment. -/
theorem nodeTitle_fallback (path : Str) (cs : List FsEntry) (cfg : Str)
    (h : configTitleLookup cs cfg = none) : nodeTitle path cs cfg = lastSeg path := by
  cases hr : readConfigFile cs cfg with
  | none => simp [nodeTitle, hr]
  | some content =>
    cases hy : yamlLoadDoc content with
    | none => simp [nodeTitle, hr, hy]
    | some d =>
      cases d with
      | ynull => simp [nodeTitle, hr, hy]
      | yscalar s => simp [nodeTitle, hr, hy]
      | ymap m =>
        have ht : lookupEntry m (strOf "title") = none := by
          simpa [configTitleLookup, hr, hy] using h
        simp [nodeTitle, hr, hy, ht]

/-- C7: when reading or YAML-parsing one node's config fails in any way
covered by the lookup (file unreadable or vanished, YAML error, not a
mapping, no title entry), `_build_node` still returns the complete
course node, with the path's final segment as its name — the build of
that node and its children proceeds and nothing is raised (first
conjunct); by contrast a failure scanning the root courses directory
propagates unmodified out of build_content_tree (second conjunct). -/
theorem c7_config_failure_fallback (name : Str) (cs : List FsEntry) :
    (hasFileNamed cs (strOf "_course.yml") = true →
     configTitleLookup cs (strOf "_course.yml") = none →
     ∀ p, build_node p (.dirE name cs)
        = some (.mk (strOf "course") (lastSeg (joinSlash p name)) (joinSlash p name)
            (build_children (joinSlash p name) cs)
            (some (joinSlash (joinSlash p name) (strOf "_course.yml")))))
  ∧ (hasFileNamed cs (strOf "_course.yml") = false →
     hasFileNamed cs (strOf "_module.yml") = true →
     configTitleLookup cs (strOf "_module.yml") = none →
     ∀ p, build_node p (.dirE name cs)
        = some (.mk (strOf "module") (lastSeg (joinSlash p name)) (joinSlash p name)
            (build_children (joinSlash p name) cs)
            (some (joinSlash (joinSlash p name) (strOf "_module.yml")))))
  ∧ (∀ e, build_content_tree (.error e) = .error e) := by
  refine ⟨?_, ?_, ?_⟩
  · intro hc hfail p
    simp [build_node, hc]
    rw [nodeTitle_fallback (joinSlash p name) cs (strOf "_course.yml") hfail]
  · intro hnc hm hfail p
    simp [build_node, hnc, hm]
    rw [nodeTitle_fallback (joinSlash p name) cs (strOf "_module.yml") hfail]
  · intro e
    rfl

/-- Closed instance of the C7 fallback theorem: an unreadable course
config still yields a node named after the directory. -/
theorem c7_config_failure_fallback_witness :
    build_node (strOf "courses") (.dirE (strOf "py101") [.fileE (strOf "_course.yml") none])
      = some (.mk (strOf "course")
          (lastSeg (joinSlash (strOf "courses") (strOf "py101")))
          (joinSlash (strOf "courses") (strOf "py101"))
          (build_children (joinSlash (strOf "courses") (strOf "py101"))
            [.fileE (strOf "_course.yml") none])
          (some (joinSlash (joinSlash (strOf "courses") (strOf "py101")) (strOf "_course.yml")))) :=
  (c7_config_failure_fallback (strOf "py101") [.fileE (strOf "_course.yml") none]).1
    rfl rfl (strOf "courses")

/-- Names of the lesson nodes of a forest in document order, through the
specification-side traversal. -/
def lessonsOfForest (l : List ContentNode) : List Str :=
  ((preorderF l).filter (fun x => x.type = strOf "lesson")).map (fun x => x.name)

/-- The gathering loop of `get_course_lesson_slugs` computes exactly the
document-order lesson names of the traversed forest, provided lesson
nodes are leaves (the data-model invariant). -/
theorem gatherChildren_eq_lessonsOfForest :
    ∀ N l, sizeOf l ≤ N →
      (∀ x ∈ preorderF l, x.type = strOf "lesson" → x.children = []) →
      gatherChildren l = lessonsOfForest l := by
  intro N
  induction N with
  | zero =>
    intro l hle _
    cases l with
    | nil => simp [gatherChildren, lessonsOfForest, preorderF]
    | cons c rest => simp at hle
  | succ N ih =>
    intro l hle hlv
    cases l with
    | nil => simp [gatherChildren, lessonsOfForest, preorderF]
    | cons c rest =>
      have hszc : sizeOf c.children < sizeOf c := by
        cases c with
        | mk t nm p cs cp => simp [ContentNode.children]; omega
      have hsz : sizeOf c + sizeOf rest ≤ N := by
        have hspec : sizeOf (c :: rest) = 1 + sizeOf c + sizeOf rest := by simp
        omega
      have hchildren : sizeOf c.children ≤ N := by omega
      have hrest : sizeOf rest ≤ N := by omega
      have hlvc : ∀ x ∈ preorderF c.children, x.type = strOf "lesson" → x.children = [] := by
        intro x hx
        refine hlv x ?_
        simp [preorderF, preorder]
        tauto
      have hlvrest : ∀ x ∈ preorderF rest, x.type = strOf "lesson" → x.children = [] := by
        intro x hx
        refine hlv x ?_
        simp [preorderF, preorder]
        tauto
      by_cases hl : c.type = strOf "lesson"
      · have hcc : c.children = [] := hlv c (by simp [preorderF, preorder]) hl
        simp [gatherChildren, lessonsOfForest, preorderF, preorder, hl, hcc,
              ih rest hrest hlvrest, lessonsOfForest]
      · have hrec := ih c.children hchildren hlvc
        simp [lessonsOfForest] at hrec
        simp [gatherChildren, lessonsOfForest, preorderF, preorder, hl, hrec,
              ih rest hrest hlvrest, lessonsOfForest]

/-- C6: `get_course_lesson_slugs` returns the empty list (raising
nothing — the function is total) whenever no node of the tree satisfies
the course match, and for the first matching course node it returns
exactly the depth-first, children-order names of the lesson leaves below
it, flattening module nesting, provided lesson nodes are leaves (the
data-model invariant). -/
theorem c6_lesson_slug_query (tree : List ContentNode) (slug : Str) :
    ((∀ c ∈ tree, courseMatch slug c = false) → get_course_lesson_slugs tree slug = [])
  ∧ (∀ c, tree.find? (courseMatch slug) = some c →
      (∀ x ∈ preorder c, x.type = strOf "lesson" → x.children = []) →
      get_course_lesson_slugs tree slug = dfsLessonNames c) := by
  constructor
  · intro h
    have hnone : tree.find? (courseMatch slug) = none := by
      rw [List.find?_eq_none]
      intro x hx
      simp [h x hx]
    simp [get_course_lesson_slugs, hnone]
  · intro c hfind hleaves
    have hmatch : courseMatch slug c = true := List.find?_some hfind
    have htype : c.type = strOf "course" := by
      simp [courseMatch, Bool.and_eq_true] at hmatch
      exact hmatch.1
    have hne : ¬ (c.type = strOf "lesson") := by
      rw [htype]
      decide
    have hleavesF : ∀ x ∈ preorderF c.children, x.type = strOf "lesson" → x.children = [] := by
      intro x hx
      refine hleaves x ?_
      simp [preorder]
      tauto
    have hrec := gatherChildren_eq_lessonsOfForest (sizeOf c.children) c.children le_rfl hleavesF
    simp [get_course_lesson_slugs, hfind, dfsLessonNames, preorder, hne, hrec, lessonsOfForest]

/-- A concrete content tree for the C6 witness: one course holding a
lesson and a module that holds another lesson. -/
def samplePy101 : ContentNode :=
  .mk (strOf "course") (strOf "Python 101") (strOf "courses/py101")
    [.mk (strOf "lesson") (strOf "a") (strOf "courses/py101/a.lesson") [] none,
     .mk (strOf "module") (strOf "M1") (strOf "courses/py101/m1")
       [.mk (strOf "lesson") (strOf "b") (strOf "courses/py101/m1/b.lesson") [] none]
       (some (strOf "courses/py101/m1/_module.yml"))]
    (some (strOf "courses/py101/_course.yml"))

/-- Closed instance of the C6 query theorem: the case-insensitively
matched course yields its document-order lesson names. -/
theorem c6_lesson_slug_query_witness :
    get_course_lesson_slugs [samplePy101] (strOf "PY101") = dfsLessonNames samplePy101 := by
  refine (c6_lesson_slug_query [samplePy101] (strOf "PY101")).2 samplePy101 rfl ?_
  intro x hx
  simp [preorder, preorderF, samplePy101, ContentNode.children] at hx
  rcases hx with rfl | rfl | rfl | rfl <;> intro ht <;>
    simp_all [ContentNode.type, ContentNode.children, strOf]
